import Mathlib

/-!
Shallow embedding of the multi-agent clinical chatbot repository
(`langgraph_rag`), covering the cohort-query tools
(`tools/cohort_query.py`), the table/ingestion loaders
(`chunking.py`), and the multi-agent analyst pipeline
(`graph/multi_agent_rwe_graph.py`, `llm.py`).

Conventions of the embedding:
* a pandas DataFrame is a `Table`: a column-name list plus rows of
  optional string cells (`none` models a missing value / NaN);
* Python dict values exchanged between stages are `PyVal`
  (None / str / int / rat / list / dict);
* the generative backend and the `exec` of generated code are modelled
  as oracle parameters (`SynthOutcome`, `ExecOutcome`, `Backend`), since
  the Python code treats them as opaque fallible calls;
* floats are modelled as rationals; the standard deviation
  (irrational in general) is recorded as the sample variance, whose
  nullness coincides with pandas returning NaN for it (count < 2).
-/

/-- Case-sensitive containment of `needle` in `hay`, as a scan over
character lists (models the Python `in` operator on `str`). -/
def containsAux (needle : List Char) : List Char → Bool
  | [] => needle.isEmpty
  | c :: t => needle.isPrefixOf (c :: t) || containsAux needle t

/-- `strContains hay needle` models Python `needle in hay` (case-sensitive). -/
def strContains (hay needle : String) : Bool :=
  containsAux needle.toList hay.toList

/-- Lower-casing character by character (models `str.lower()`). -/
def lowerStr (s : String) : String :=
  (s.toList.map Char.toLower).asString

/-- `strContainsCI hay needle` models the matching behaviour of
`Series.str.contains(needle, case=False)` for patterns without regex
metacharacters, where case-insensitive regex search coincides with
case-insensitive substring search. The source leaves the default
`regex=True` in place, so pattern compilation — and the `re.error` it
can raise — is modelled separately by `rePatternClass` and
`_apply_filter_re` below. -/
def strContainsCI (hay needle : String) : Bool :=
  strContains (lowerStr hay) (lowerStr needle)

/-- Python values as exchanged between the pipeline stages:
None, strings, ints, floats (as rationals), lists and dicts. -/
inductive PyVal where
  | none : PyVal
  | str : String → PyVal
  | int : Int → PyVal
  | rat : ℚ → PyVal
  | list : List PyVal → PyVal
  | dict : List (String × PyVal) → PyVal

/-- Python `repr` of a `PyVal` (quotes written via escape codes). -/
def pyRepr : PyVal → String
  | .none => "None"
  | .str s => "\x27" ++ s ++ "\x27"
  | .int i => toString i
  | .rat q => toString q
  | .list vs => "[" ++
      String.intercalate ", " (vs.attach.map (fun v => pyRepr v.1)) ++ "]"
  | .dict kvs => "\x7b" ++ String.intercalate ", "
      (kvs.attach.map (fun kv =>
        "\x27" ++ kv.1.1 ++ "\x27: " ++ pyRepr kv.1.2)) ++ "\x7d"
decreasing_by
  · have h := List.sizeOf_lt_of_mem v.2
    simp only [PyVal.list.sizeOf_spec]
    omega
  · have h := List.sizeOf_lt_of_mem kv.2
    have h2 : sizeOf kv.1.2 < sizeOf kv.1 := by
      rcases kv.1 with ⟨a, b⟩
      simp
    simp only [PyVal.dict.sizeOf_spec]
    omega

/-- Python `str()` of a `PyVal`: the string itself for strings,
`repr` for every other shape (as for dicts, lists, None). -/
def pyStr : PyVal → String
  | .str s => s
  | v => pyRepr v

/-- A loaded DataFrame: column names plus rows of optional string cells
(`none` is a missing value / NaN). -/
structure Table where
  cols : List String
  rows : List (List (Option String))
deriving DecidableEq, Repr

/-- `astype(str)` on one cell: a missing value renders as `"nan"`. -/
def cellStr : Option String → String
  | Option.none => "nan"
  | some s => s

/-- Cell of row `r` at the column named `c` (first matching column). -/
def getCell (cols : List String) (r : List (Option String)) (c : String) :
    Option String :=
  match cols.indexOf? c with
  | Option.none => Option.none
  | some i => r.getD i Option.none

/-- One value of a filter spec: a scalar (substring match) or a list of
literals (membership test), already rendered through `str(...)`. -/
inductive FVal where
  | scalar : String → FVal
  | list : List String → FVal
deriving DecidableEq, Repr

/-- Row test for one `(column, value)` entry of a filter spec, given that
the column is present: list values test membership of the cell rendered
through `astype(str)`, scalars test case-insensitive containment. -/
def cellMatches (cell : Option String) : FVal → Bool
  | .list vs => vs.contains (cellStr cell)
  | .scalar s => strContainsCI (cellStr cell) s

/-- `_apply_filter` from `tools/cohort_query.py`: an empty spec returns
the frame unchanged; otherwise a row is kept iff every entry of the spec
names a present column whose cell matches (a missing column conjoins
`False` into the mask, so no row survives). This definition covers the
non-raising fragment in which every scalar value tested against a
present column is free of regex metacharacters; the source's
`Series.str.contains` call keeps its default `regex=True` and can raise
`re.error` on other scalars, which `_apply_filter_re` below makes
explicit. -/
def _apply_filter (df : Table) (filter_spec : List (String × FVal)) : Table :=
  if filter_spec.isEmpty then df
  else
    { cols := df.cols
      rows := df.rows.filter (fun r =>
        filter_spec.all (fun cv =>
          df.cols.contains cv.1 && cellMatches (getCell df.cols r cv.1) cv.2)) }

/-- Code points of the characters that are special in Python regular
expressions: `. ^ $ * + ?`, the two braces, the two square brackets,
backslash, pipe, and the two parentheses. -/
def reMetaCodes : List Nat :=
  [46, 94, 36, 42, 43, 63, 123, 125, 91, 93, 92, 124, 40, 41]

/-- Classification of a scalar value as a Python regex pattern, for the
fragment of `re.compile` the embedding models:
`some true` — no metacharacters at all: the pattern compiles and
case-insensitive search with it coincides with case-insensitive
substring search (`strContainsCI`);
`some false` — the pattern contains `(` but neither `)` nor `\` nor
`[`, so every parenthesis opens an unterminated group and `re.compile`
raises `re.error`;
`none` — any other pattern (valid regexes with non-literal semantics):
outside the modelled fragment. -/
def rePatternClass (pat : String) : Option Bool :=
  let cs := pat.toList
  if cs.all (fun c => !reMetaCodes.contains c.toNat) then some true
  else if cs.contains '(' && !cs.contains ')' &&
      !cs.contains '\\' && !cs.contains '[' then some false
  else Option.none

/-- How one `(column, value)` entry of the filter loop behaves when the
source evaluates it: an absent column only conjoins `False` into the
mask, a list value goes through `isin` (neither can raise), and a
scalar over a present column is compiled as a regex by
`Series.str.contains` and raises `re.error` on an invalid pattern. -/
inductive EntryEval where
  | noRaise : EntryEval
  | raises : EntryEval
  | unmodelled : EntryEval
deriving DecidableEq, Repr

/-- Evaluation class of one filter-spec entry, per the case split of the
loop body in `_apply_filter`. -/
def entryEval (df : Table) (cv : String × FVal) : EntryEval :=
  if !df.cols.contains cv.1 then .noRaise
  else
    match cv.2 with
    | .list _ => .noRaise
    | .scalar s =>
        match rePatternClass s with
        | some true => .noRaise
        | some false => .raises
        | Option.none => .unmodelled

/-- `_apply_filter` with the regex compilation of scalar values made
explicit: the call raises (`Except.error`) whenever some entry tests an
invalid pattern against a present column, returns the filtered frame
when every entry is in the literal, non-raising fragment, and is left
unmodelled (`Option.none`) when any entry's pattern falls outside the
fragment classified by `rePatternClass`. -/
def _apply_filter_re (df : Table) (filter_spec : List (String × FVal)) :
    Option (Except Unit Table) :=
  if filter_spec.any (fun cv => entryEval df cv = .unmodelled) then Option.none
  else if filter_spec.any (fun cv => entryEval df cv = .raises) then
    some (.error ())
  else some (.ok (_apply_filter df filter_spec))

/-- The plan-step fields read by the two cohort tools; `tables_used` and
`filter` are already normalized through `step.get(...) or default`. -/
structure PlanStep where
  step_id : Option Int := Option.none
  name : Option String := Option.none
  tool : Option String := Option.none
  tables_used : List String := []
  filter : List (String × FVal) := []
  feature : Option String := Option.none

/-- The cohort context threaded through the step executors. -/
structure CohortContext where
  current_cohort : Option Table := Option.none
  current_cohort_table : Option String := Option.none
  current_cohort_patient_id_col : Option String := Option.none

/-- Dictionary of loaded tables, keyed by logical name. -/
def lookupTable (tables : List (String × Table)) (n : String) : Option Table :=
  (tables.find? (fun p => p.1 == n)).map (fun p => p.2)

/-- First entry of `tables_used`, with the hardcoded alias
`"clinical" -> "patients"` applied when a `patients` table is loaded. -/
def resolveTableName (tables_used : List String)
    (tables : List (String × Table)) : Option String :=
  match tables_used.head? with
  | some "clinical" =>
      if (lookupTable tables "patients").isSome then some "patients"
      else some "clinical"
  | o => o

/-- Combined resolution and lookup, mirroring
`if not table_name or table_name not in tables` (note that the empty
string is falsy in Python, hence the explicit test). -/
def resolveStepTable (tables_used : List String)
    (tables : List (String × Table)) : Option (String × Table) :=
  match resolveTableName tables_used tables with
  | Option.none => Option.none
  | some tn =>
      if tn == "" then Option.none
      else (lookupTable tables tn).map (fun df => (tn, df))

/-- f-string rendering of an optional string (`None` for a missing one). -/
def showOptStr : Option String → String
  | Option.none => "None"
  | some s => s

/-- Lift of an optional string into a `PyVal`. -/
def pyOfOptStr : Option String → PyVal
  | Option.none => PyVal.none
  | some s => .str s

/-- Lift of an optional int into a `PyVal`. -/
def pyOfOptInt : Option Int → PyVal
  | Option.none => PyVal.none
  | some i => .int i

/-- Lift of a filter value into a `PyVal`. -/
def pyOfFVal : FVal → PyVal
  | .scalar s => .str s
  | .list vs => .list (vs.map PyVal.str)

/-- The `step_id` / `name` / `tool` fields shared by every step result. -/
def baseFields (step : PlanStep) : List (String × PyVal) :=
  [("step_id", pyOfOptInt step.step_id),
   ("name", pyOfOptStr step.name),
   ("tool", pyOfOptStr step.tool)]

/-- The patient-identifier columns of a frame: those whose name contains
`"Patient ID"` (case-sensitive) or lower-cases to `"patient_id"`. -/
def patientIdCols (df : Table) : List String :=
  df.cols.filter (fun c => strContains c "Patient ID" || lowerStr c == "patient_id")

/-- `execute_cohort_filter_step` from `tools/cohort_query.py`: resolve
the table, apply the filter, derive patient counts from the first
patient-identifier column (if any), store the cohort in the context and
return the step-result dict. On an unresolvable table the context is
returned untouched alongside a failed step result. -/
def execute_cohort_filter_step (step : PlanStep)
    (tables : List (String × Table)) (ctx : CohortContext) :
    List (String × PyVal) × CohortContext :=
  match resolveStepTable step.tables_used tables with
  | Option.none =>
      (baseFields step ++
        [("status", .str "failed"),
         ("error", .str ("Unknown table: " ++
            showOptStr (resolveTableName step.tables_used tables)))], ctx)
  | some (tn, df) =>
      let filtered := _apply_filter df step.filter
      let pidCol := (patientIdCols df).head?
      let nonNullIds :=
        match pidCol with
        | some pc => filtered.rows.filterMap (fun r => getCell df.cols r pc)
        | Option.none => []
      let nPatients : Option Nat := pidCol.map (fun _ => nonNullIds.dedup.length)
      let ctx2 : CohortContext :=
        { current_cohort := some filtered
          current_cohort_table := some tn
          current_cohort_patient_id_col := pidCol }
      (baseFields step ++
        [("status", .str "success"),
         ("table_used", .str tn),
         ("filter_applied", .dict (step.filter.map (fun cv => (cv.1, pyOfFVal cv.2)))),
         ("row_count", .int filtered.rows.length),
         ("patient_count",
            match nPatients with
            | some n => .int n
            | Option.none => PyVal.none),
         ("patient_id_column", pyOfOptStr pidCol),
         ("sample_patient_ids", .list ((nonNullIds.take 5).map PyVal.str))], ctx2)

/-- Value of a digit list in base ten. -/
def digitsToNat (ds : List Char) : Nat :=
  ds.foldl (fun n c => n * 10 + (c.toNat - 48)) 0

/-- Leading/trailing whitespace removal on the character list. -/
def trimChars (cs : List Char) : List Char :=
  ((cs.dropWhile Char.isWhitespace).reverse.dropWhile Char.isWhitespace).reverse

/-- Models `pd.to_numeric(..., errors="coerce")` on one cell, for plain
decimal literals: optional surrounding whitespace, optional sign, digits
with an optional single fractional point. Anything else (including
scientific notation, which the embedding does not need) coerces to a
missing value. -/
def parseNumeric (s : String) : Option ℚ :=
  let cs := trimChars s.toList
  let signRest : Bool × List Char :=
    match cs with
    | '-' :: t => (true, t)
    | '+' :: t => (false, t)
    | t => (false, t)
  let neg := signRest.1
  let intPart := signRest.2.takeWhile Char.isDigit
  let rest := signRest.2.dropWhile Char.isDigit
  let mag? : Option ℚ :=
    match rest with
    | [] => if intPart.isEmpty then Option.none else some (digitsToNat intPart : ℚ)
    | '.' :: frac =>
        if frac.all Char.isDigit && !(intPart.isEmpty && frac.isEmpty) then
          some ((digitsToNat intPart : ℚ) +
            (digitsToNat frac : ℚ) / ((10 : ℚ) ^ frac.length))
        else Option.none
    | _ => Option.none
  mag?.map (fun m => if neg then -m else m)

/-- The numeric series of a feature column:
`pd.to_numeric(cohort_df[feature], errors="coerce").dropna()`. -/
def numericSeries (df : Table) (feature : String) : List ℚ :=
  df.rows.filterMap (fun r => (getCell df.cols r feature).bind parseNumeric)

/-- Insertion into a sorted rational list. -/
def insertSorted (x : ℚ) : List ℚ → List ℚ
  | [] => [x]
  | y :: t => if x ≤ y then x :: y :: t else y :: insertSorted x t

/-- Insertion sort for rationals (any stable comparison sort agrees on
rational values, so this models pandas sorting for quantiles). -/
def sortQ (xs : List ℚ) : List ℚ := xs.foldr insertSorted []

/-- Arithmetic mean. -/
def listMean (xs : List ℚ) : ℚ := xs.sum / (xs.length : ℚ)

/-- Sample variance with `ddof=1` (the square of pandas `std`), absent
for fewer than two values exactly when pandas `std` is NaN. -/
def sampleVar (xs : List ℚ) : Option ℚ :=
  if xs.length < 2 then Option.none
  else
    let m := listMean xs
    some ((xs.map (fun x => (x - m) ^ 2)).sum / ((xs.length : ℚ) - 1))

/-- Floor of a nonnegative rational as a natural number. -/
def ratFloorNat (q : ℚ) : Nat := q.num.toNat / q.den

/-- Linear-interpolation quantile of an already sorted list
(the scheme used by `Series.describe` / `numpy percentile`). -/
def quantileSorted (xs : List ℚ) (p : ℚ) : ℚ :=
  match xs with
  | [] => 0
  | _ =>
      let pos : ℚ := p * ((xs.length : ℚ) - 1)
      let i : Nat := ratFloorNat pos
      let f : ℚ := pos - (i : ℚ)
      let xi := xs.getD i 0
      let xj := xs.getD (i + 1) xi
      xi + f * (xj - xi)

/-- The `metrics` dict built from a nonempty numeric series, following
`series.describe()` (count, mean, std, min, max, median, IQR bounds). -/
def metricsOf (series : List ℚ) : List (String × PyVal) :=
  let sorted := sortQ series
  [("count", .int (series.length : Int)),
   ("mean", .rat (listMean series)),
   ("std",
      match sampleVar series with
      | some v => .rat v
      | Option.none => PyVal.none),
   ("min", .rat (sorted.headD 0)),
   ("max", .rat (sorted.getLastD 0)),
   ("median", .rat (quantileSorted sorted (1/2))),
   ("iqr", .list [.rat (quantileSorted sorted (1/4)),
                  .rat (quantileSorted sorted (3/4))])]

/-- Descriptive statistics of `step.feature` over a given frame, the body
of `execute_feature_descriptives_step` once a frame is in hand (`source`
records where the frame came from). A falsy or absent feature column and
an all-missing numeric series each yield a failed step result. -/
def descriptivesOn (step : PlanStep) (cohort : Table) (source : String) :
    List (String × PyVal) :=
  let featOk :=
    match step.feature with
    | Option.none => false
    | some f => !(f == "") && cohort.cols.contains f
  if !featOk then
    baseFields step ++
      [("status", .str "failed"),
       ("source", .str source),
       ("error", .str ("Feature column not found: " ++ showOptStr step.feature))]
  else
    let f := step.feature.getD ""
    let series := numericSeries cohort f
    if series.isEmpty then
      baseFields step ++
        [("status", .str "failed"),
         ("source", .str source),
         ("error", .str ("No numeric values available for feature: " ++ f))]
    else
      baseFields step ++
        [("status", .str "success"),
         ("source", .str source),
         ("feature", .str f),
         ("metrics", .dict (metricsOf series))]

/-- `execute_feature_descriptives_step` from `tools/cohort_query.py`:
use the current cohort when one is present, otherwise resolve a fallback
table from `tables_used` (failing when none resolves); the context is
returned unchanged in every branch. -/
def execute_feature_descriptives_step (step : PlanStep)
    (tables : List (String × Table)) (ctx : CohortContext) :
    List (String × PyVal) × CohortContext :=
  match ctx.current_cohort with
  | some cdf => (descriptivesOn step cdf "current_cohort", ctx)
  | Option.none =>
      match resolveStepTable step.tables_used tables with
      | Option.none =>
          (baseFields step ++
            [("status", .str "failed"),
             ("error", .str ("No cohort and unknown table: " ++
                showOptStr (resolveTableName step.tables_used tables)))], ctx)
      | some (tn, df) => (descriptivesOn step df ("table:" ++ tn), ctx)

/-- Load failures of the table loaders: a missing file
(`FileNotFoundError`) or a missing required column (`ValueError`). -/
inductive LoadError where
  | notFound : String → LoadError
  | schemaError : String → LoadError
deriving DecidableEq, Repr

/-- A filesystem of TSV files, as a partial map from paths to the frame
`pd.read_csv(path, sep="\t")` would produce. -/
def FileSystem : Type := String → Option Table

/-- `_load_table` from `tools/cohort_query.py`: read the TSV at `path`
(the `lru_cache` is observationally the identity for a fixed
filesystem, so the embedding elides it). The read fails only when the
path does not exist; no column of the frame is checked. -/
def _load_table (fs : FileSystem) (path : String) : Except LoadError Table :=
  match fs path with
  | Option.none => .error (.notFound ("TSV file not found: " ++ path))
  | some df => .ok df

/-- Configuration of one table from `config.py`. -/
structure TableConfig where
  name : String
  path : String
  id_column : String := "patient_id"
  text_columns : List String := []

/-- `infer_text_columns` from `chunking.py`: the explicit `text_columns`
when nonempty, otherwise every column except the id column. -/
def infer_text_columns (df : Table) (cfg : TableConfig) : List String :=
  if !cfg.text_columns.isEmpty then cfg.text_columns
  else df.cols.filter (fun c => !(c == cfg.id_column))

/-- One ingestion document: row id, combined text, and the row index. -/
structure RowDoc where
  id : String
  text : String
  row_index : Nat
deriving DecidableEq, Repr

/-- The text of one row: `"col: val"` lines for each non-missing text
column, joined by newlines. -/
def rowText (cols : List String) (textCols : List String)
    (r : List (Option String)) : String :=
  String.intercalate "\n"
    ((textCols.filterMap (fun c =>
      match getCell cols r c with
      | Option.none => Option.none
      | some v => some (c ++ ": " ++ v))))

/-- `_load_table_rows_as_text` from `chunking.py`: fails with `notFound`
when the path does not exist, with `schemaError` when the configured
`id_column` is absent from the frame, and otherwise produces one
document per row. -/
def _load_table_rows_as_text (fs : FileSystem) (cfg : TableConfig) :
    Except LoadError (List RowDoc) :=
  match fs cfg.path with
  | Option.none => .error (.notFound ("TSV file not found: " ++ cfg.path))
  | some df =>
      if !df.cols.contains cfg.id_column then
        .error (.schemaError ("id_column=" ++ "\x27" ++ cfg.id_column ++
          "\x27 not in columns for table " ++ "\x27" ++ cfg.name ++ "\x27"))
      else
        let textCols := infer_text_columns df cfg
        .ok ((df.rows.enum).map (fun ri =>
          { id := cellStr (getCell df.cols ri.2 cfg.id_column)
            text := rowText df.cols textCols ri.2
            row_index := ri.1 }))

/-- Outcome of the code-synthesis call (`generate_analyst_code`):
either the raised message or the returned code text. -/
inductive SynthOutcome where
  | err : String → SynthOutcome
  | ok : String → SynthOutcome

/-- Outcome of `exec`-ing the generated code and calling its
`run_analysis()` entry point: a raised fault (including a missing or
non-callable entry point) or the returned value. -/
inductive ExecOutcome where
  | fault : String → ExecOutcome
  | ret : PyVal → ExecOutcome

/-- The partial state patch returned by the analyst node; `none` fields
model keys absent from the returned dict. -/
structure AnalystPatch where
  execution_result : List (String × PyVal)
  analyst_generated_code : Option String := Option.none
  analyst_error : Option String := Option.none

/-- `code[:4000]`. -/
def pyTruncate (code : String) : String := code.take 4000

/-- `analyst_node_smart` from `graph/multi_agent_rwe_graph.py`, with
synthesis and execution supplied as oracles. Every branch returns a
well-formed patch: a synthesis error short-circuits before execution; a
fault during execution is converted into a failed result; a non-dict
return value is a failed result carrying `str(result)`; a dict return
keeps only `steps` (default `[]`) and `overall_status` (default
`"success"`) and the node writes `notes` itself. -/
def analyst_node_smart (synth : SynthOutcome)
    (execRun : String → ExecOutcome) : AnalystPatch :=
  match synth with
  | .err e =>
      { execution_result :=
          [("steps", .list []),
           ("overall_status", .str "failed"),
           ("notes", .str "Code generation for Analyst failed."),
           ("error", .str e)]
        analyst_error := some e }
  | .ok code =>
      match execRun code with
      | .fault e =>
          { execution_result :=
              [("steps", .list []),
               ("overall_status", .str "failed"),
               ("notes", .str "Execution of generated analysis code failed."),
               ("error", .str e),
               ("generated_code", .str (pyTruncate code))]
            analyst_generated_code := some (pyTruncate code)
            analyst_error := some e }
      | .ret v =>
          let execution_result :=
            match v with
            | .dict kvs =>
                [("steps", (List.lookup "steps" kvs).getD (.list [])),
                 ("overall_status",
                    (List.lookup "overall_status" kvs).getD (.str "success")),
                 ("notes",
                    .str "Analyst executed a dynamically generated analysis script.")]
            | _ =>
                [("steps", .list []),
                 ("overall_status", .str "failed"),
                 ("notes", .str "Generated analysis code did not return a dict."),
                 ("raw_return", .str (pyStr v)),
                 ("generated_code", .str (pyTruncate code))]
          { execution_result := execution_result
            analyst_generated_code := some (pyTruncate code) }

/-- The shared pipeline state (`ChatState` TypedDict); `none` models an
absent key. -/
structure ChatState where
  user_query : String
  oncologist_view : Option (List (String × PyVal)) := Option.none
  plan : Option (List (String × PyVal)) := Option.none
  execution_result : Option (List (String × PyVal)) := Option.none
  final_answer : Option String := Option.none
  analyst_generated_code : Option String := Option.none
  analyst_error : Option String := Option.none

/-- The external generative backend and the executor of generated code,
as one oracle record: each field models one opaque call. -/
structure Backend where
  oncologist : String → List (String × PyVal)
  planner : String → List (String × PyVal) → List (String × PyVal)
  synth : String → List (String × PyVal) → List (String × PyVal) → SynthOutcome
  execRun : String → ExecOutcome
  writer : String → List (String × PyVal) → List (String × PyVal) →
    List (String × PyVal) → String

/-- The oncologist node: writes `oncologist_view`. -/
def oncologist_node (b : Backend) (s : ChatState) : ChatState :=
  { s with oncologist_view := some (b.oncologist s.user_query) }

/-- The planner node: writes `plan` from the query and the view. -/
def planner_node (b : Backend) (s : ChatState) : ChatState :=
  { s with plan := some (b.planner s.user_query (s.oncologist_view.getD [])) }

/-- The analyst node: runs `analyst_node_smart` on the oracle outcomes
and merges its patch (a key absent from the patch leaves the state
entry unchanged, mirroring the graph's shallow merge). -/
def analyst_node (b : Backend) (s : ChatState) : ChatState :=
  let patch := analyst_node_smart
    (b.synth s.user_query (s.oncologist_view.getD []) (s.plan.getD []))
    b.execRun
  { s with
      execution_result := some patch.execution_result
      analyst_generated_code :=
        patch.analyst_generated_code <|> s.analyst_generated_code
      analyst_error := patch.analyst_error <|> s.analyst_error }

/-- The writer node: always writes `final_answer` from the record. -/
def writer_node (b : Backend) (s : ChatState) : ChatState :=
  { s with final_answer := some (b.writer s.user_query
      (s.oncologist_view.getD []) (s.plan.getD [])
      (s.execution_result.getD [])) }

/-- The compiled graph `oncologist -> planner -> analyst -> writer`:
a strictly linear pass threading the shared state. -/
def runPipeline (b : Backend) (q : String) : ChatState :=
  writer_node b (analyst_node b (planner_node b (oncologist_node b
    { user_query := q })))

/-! ## Concrete fixtures used by witnesses and counterexamples -/

/-- A small patients table with a patient-identifier column. -/
def tblW : Table :=
  { cols := ["Patient ID", "Cancer Type", "TMB"]
    rows := [[some "P1", some "NSCLC", some "5"],
             [some "P2", some "Breast", some "3"],
             [some "P1", some "NSCLC", Option.none]] }

/-- The loaded-tables dictionary holding `tblW` under `"patients"`. -/
def tablesW : List (String × Table) := [("patients", tblW)]

/-- A table without any patient-identifier column. -/
def tblNoId : Table := { cols := ["a"], rows := [[some "1"], [some "2"]] }

/-! ## C10 -/

/-- C10: applying the cohort filter with an empty (or null, which the
step executor normalizes to empty) filterSpec is the identity on the
table. -/
theorem apply_filter_empty_spec_identity (df : Table) :
    _apply_filter df [] = df := rfl

/-! ## C4 -/

/-- C4 (code bug): at the failing input — a filterSpec referencing the
absent column `"Stage"` together with the present column
`"Cancer Type"` whose scalar value `"("` is an invalid regex pattern —
the source's `_apply_filter` raises `re.error` while compiling `"("`
(`Series.str.contains` keeps its default `regex=True`), instead of
returning zero rows without raising as the claim, the spec, and the
function's own docstring ("case-insensitive substring match") all
describe. -/
theorem apply_filter_absent_column_raises_bug :
    tblW.cols.contains "Stage" = false ∧
    _apply_filter_re tblW
        [("Stage", FVal.scalar "x"), ("Cancer Type", FVal.scalar "(")] =
      some (Except.error ()) := ⟨rfl, rfl⟩

/-! ## C9 -/

/-- C9: when `execute_cohort_filter_step` fails (no table name resolves
to a loaded table), the cohort context it returns is exactly the context
it received. -/
theorem cohort_filter_failure_preserves_context (step : PlanStep)
    (tables : List (String × Table)) (ctx : CohortContext)
    (h : resolveStepTable step.tables_used tables = Option.none) :
    (execute_cohort_filter_step step tables ctx).2 = ctx := by
  unfold execute_cohort_filter_step
  rw [h]

/-- Witness for C9 at a concrete failing step (unknown table name). -/
theorem cohort_filter_failure_preserves_context_witness :
    resolveStepTable ["nope"] tablesW = Option.none ∧
    (execute_cohort_filter_step { tables_used := ["nope"] } tablesW
      { current_cohort := some tblW }).2 = { current_cohort := some tblW } :=
  ⟨rfl, cohort_filter_failure_preserves_context { tables_used := ["nope"] }
    tablesW { current_cohort := some tblW } rfl⟩

/-! ## C2 -/

/-- C2 counterexample: on a synthesis failure the `notes` field of the
returned ExecutionResult is the literal
`"Code generation for Analyst failed."`, not `"synthesis failed"` as the
claim states. -/
theorem synthesis_failure_notes_counterexample :
    List.lookup "notes" (analyst_node_smart (SynthOutcome.err "boom")
        (fun _ => ExecOutcome.ret PyVal.none)).execution_result =
      some (PyVal.str "Code generation for Analyst failed.") ∧
    "Code generation for Analyst failed." ≠ "synthesis failed" :=
  ⟨rfl, by decide⟩

/-- C2 (amended): when code synthesis fails with message `e`, the
analyst stage returns exactly
`{steps: [], overall_status: "failed", notes: "Code generation for
Analyst failed.", error: e}`, and execution of generated code is never
attempted (the patch is independent of the execution oracle). -/
theorem synthesis_failure_short_circuits (e : String)
    (execRun execRun2 : String → ExecOutcome) :
    (analyst_node_smart (.err e) execRun).execution_result =
      [("steps", .list []),
       ("overall_status", .str "failed"),
       ("notes", .str "Code generation for Analyst failed."),
       ("error", .str e)] ∧
    analyst_node_smart (.err e) execRun = analyst_node_smart (.err e) execRun2 :=
  ⟨rfl, rfl⟩

/-! ## C3 -/

/-- C3: normalization of the value returned by the generated procedure.
A non-mapping value yields a failed result carrying `str(result)` under
`raw_return` (the node stays total, nothing is raised); a mapping yields
exactly the three keys `steps` (default `[]`), `overall_status` (default
`"success"`) and a wrapper-written `notes`, every other key of the
mapping being discarded. -/
theorem analyst_normalization (code : String) (v : PyVal)
    (execRun : String → ExecOutcome) (he : execRun code = .ret v) :
    ((∀ kvs, v ≠ .dict kvs) →
      List.lookup "overall_status"
          (analyst_node_smart (.ok code) execRun).execution_result =
        some (.str "failed") ∧
      List.lookup "raw_return"
          (analyst_node_smart (.ok code) execRun).execution_result =
        some (.str (pyStr v))) ∧
    (∀ kvs, v = .dict kvs →
      (analyst_node_smart (.ok code) execRun).execution_result =
        [("steps", (List.lookup "steps" kvs).getD (.list [])),
         ("overall_status",
            (List.lookup "overall_status" kvs).getD (.str "success")),
         ("notes",
            .str "Analyst executed a dynamically generated analysis script.")]) := by
  constructor
  · intro hnd
    simp only [analyst_node_smart]
    rw [he]
    cases v with
    | dict kvs => exact absurd rfl (hnd kvs)
    | none => exact ⟨rfl, rfl⟩
    | str s => exact ⟨rfl, rfl⟩
    | int i => exact ⟨rfl, rfl⟩
    | rat q => exact ⟨rfl, rfl⟩
    | list vs => exact ⟨rfl, rfl⟩
  · intro kvs hv
    subst hv
    simp only [analyst_node_smart]
    rw [he]

/-- The concrete mapping used by the C3 witness: it carries non-default
`steps` and `overall_status` and an extra key to be discarded. -/
def dictW : PyVal :=
  .dict [("steps", .list [.int 1]),
         ("overall_status", .str "partial_success"),
         ("junk", .int 7)]

/-- Witness for C3 at a concrete mapping return value: extraction with
defaults, key discarding, and wrapper-written notes. -/
theorem analyst_normalization_witness :
    (analyst_node_smart (.ok "code") (fun _ => .ret dictW)).execution_result =
      [("steps", PyVal.list [.int 1]),
       ("overall_status", PyVal.str "partial_success"),
       ("notes",
          PyVal.str "Analyst executed a dynamically generated analysis script.")] := by
  have h := (analyst_normalization "code" dictW (fun _ => .ret dictW) rfl).2
    [("steps", .list [.int 1]),
     ("overall_status", .str "partial_success"),
     ("junk", .int 7)] rfl
  rw [h]
  rfl

/-! ## C1 -/

/-- C1: when the synthesized procedure raises a fault during execution,
the analyst stage catches it (the pipeline run is total and completes),
records an ExecutionResult with `overall_status = "failed"`, and the
Writer stage still runs, yielding a non-empty `final_answer` whenever
the writer backend produces non-empty text. -/
theorem execution_fault_contained_pipeline_reaches_writer (b : Backend)
    (q code msg : String)
    (hs : b.synth q (b.oncologist q) (b.planner q (b.oncologist q)) =
      SynthOutcome.ok code)
    (he : b.execRun code = ExecOutcome.fault msg)
    (hw : ∀ v p er, b.writer q v p er ≠ "") :
    ∃ er w,
      (runPipeline b q).execution_result = some er ∧
      List.lookup "overall_status" er = some (PyVal.str "failed") ∧
      (runPipeline b q).final_answer = some w ∧
      w ≠ "" := by
  unfold runPipeline writer_node analyst_node planner_node oncologist_node
  simp only [Option.getD_some]
  rw [hs]
  simp only [analyst_node_smart]
  rw [he]
  exact ⟨_, _, rfl, rfl, rfl, hw _ _ _⟩

/-- The backend used by the C1 witness: synthesis succeeds, execution of
the generated code faults, the writer returns fixed non-empty text. -/
def backendW : Backend :=
  { oncologist := fun _ => []
    planner := fun _ _ => []
    synth := fun _ _ _ => .ok "def run_analysis(): raise ValueError"
    execRun := fun _ => .fault "boom"
    writer := fun _ _ _ _ => "Here is the answer." }

/-- Witness for C1 at the concrete faulting backend. -/
theorem execution_fault_contained_pipeline_reaches_writer_witness :
    ∃ er w,
      (runPipeline backendW "how many patients?").execution_result = some er ∧
      List.lookup "overall_status" er = some (PyVal.str "failed") ∧
      (runPipeline backendW "how many patients?").final_answer = some w ∧
      w ≠ "" :=
  execution_fault_contained_pipeline_reaches_writer backendW
    "how many patients?" "def run_analysis(): raise ValueError" "boom"
    rfl rfl
    (fun _ _ _ => (by decide : ("Here is the answer." : String) ≠ ""))

/-! ## C6 -/

/-- C6: a `cohort_filter` step on table `T` with filter `F` followed by
a `feature_descriptives` step with no table specified, threading the
same context through both calls, computes its statistics over the
cohort produced by the first step (`_apply_filter` of `T` by `F`), not
over the raw table. -/
theorem cohort_then_descriptives_uses_cohort (step1 step2 : PlanStep)
    (tables : List (String × Table)) (ctx : CohortContext)
    (tn : String) (df : Table)
    (h1 : resolveStepTable step1.tables_used tables = some (tn, df))
    (_hnotables : step2.tables_used = []) :
    execute_feature_descriptives_step step2 tables
        (execute_cohort_filter_step step1 tables ctx).2 =
      (descriptivesOn step2 (_apply_filter df step1.filter) "current_cohort",
       (execute_cohort_filter_step step1 tables ctx).2) := by
  unfold execute_cohort_filter_step
  rw [h1]
  rfl

/-- Steps used by the C6 witness: a filter to NSCLC patients, then
descriptives of TMB with no table specified. -/
def step1W : PlanStep :=
  { tables_used := ["patients"], filter := [("Cancer Type", .scalar "NSCLC")] }

/-- Second step of the C6 witness. -/
def step2W : PlanStep := { feature := some "TMB" }

/-- Witness for C6 at the concrete table and filter. -/
theorem cohort_then_descriptives_uses_cohort_witness :
    resolveStepTable step1W.tables_used tablesW = some ("patients", tblW) ∧
    execute_feature_descriptives_step step2W tablesW
        (execute_cohort_filter_step step1W tablesW {}).2 =
      (descriptivesOn step2W (_apply_filter tblW step1W.filter)
        "current_cohort",
       (execute_cohort_filter_step step1W tablesW {}).2) :=
  ⟨rfl, cohort_then_descriptives_uses_cohort step1W step2W tablesW {}
    "patients" tblW rfl rfl⟩

/-! ## C7 -/

/-- Step and tables for the C7 counterexample: a successful cohort
filter over a table with no patient-identifier column. -/
def stepNoId : PlanStep := { tables_used := ["t"] }

/-- Table dictionary for the C7 counterexample. -/
def tablesNoId : List (String × Table) := [("t", tblNoId)]

/-- C7 counterexample: on a table with no patient-identifier column the
step result still carries the key `patient_count` — with value `None` —
rather than omitting it as the claim states. -/
theorem patient_count_not_omitted_counterexample :
    patientIdCols tblNoId = [] ∧
    List.lookup "patient_count"
        (execute_cohort_filter_step stepNoId tablesNoId {}).1 =
      some PyVal.none := by
  exact ⟨by decide, rfl⟩

/-- C7 (amended): on a successful cohort filter, when some column of the
table contains `"Patient ID"` (case-sensitive) or equals `"patient_id"`
case-insensitively, the first such column is the identifier and
`patient_count` is the number of distinct non-null identifier values in
the filtered cohort; when no such column exists, `patient_count` is
present with a null value (not zero, and not omitted). -/
theorem patient_count_derivation (step : PlanStep)
    (tables : List (String × Table)) (ctx : CohortContext)
    (tn : String) (df : Table)
    (h : resolveStepTable step.tables_used tables = some (tn, df)) :
    (patientIdCols df = [] →
      List.lookup "patient_count"
          (execute_cohort_filter_step step tables ctx).1 =
        some PyVal.none) ∧
    (∀ pc rest, patientIdCols df = pc :: rest →
      List.lookup "patient_id_column"
          (execute_cohort_filter_step step tables ctx).1 =
        some (PyVal.str pc) ∧
      List.lookup "patient_count"
          (execute_cohort_filter_step step tables ctx).1 =
        some (PyVal.int (((_apply_filter df step.filter).rows.filterMap
          (fun r => getCell df.cols r pc)).dedup.length))) := by
  constructor
  · intro hnil
    unfold execute_cohort_filter_step
    rw [h]
    dsimp only
    rw [hnil]
    rfl
  · intro pc rest hcons
    unfold execute_cohort_filter_step
    rw [h]
    dsimp only
    rw [hcons]
    exact ⟨rfl, rfl⟩

/-- Step used by the C7 witness: filter `tblW` down to NSCLC rows. -/
def step7W : PlanStep :=
  { tables_used := ["patients"], filter := [("Cancer Type", .scalar "NSCLC")] }

/-- Witness for C7 at `tblW`, whose first identifier column is
`"Patient ID"`: the NSCLC cohort has two rows but one distinct patient. -/
theorem patient_count_derivation_witness :
    patientIdCols tblW = ["Patient ID"] ∧
    List.lookup "patient_id_column"
        (execute_cohort_filter_step step7W tablesW {}).1 =
      some (PyVal.str "Patient ID") ∧
    List.lookup "patient_count"
        (execute_cohort_filter_step step7W tablesW {}).1 =
      some (PyVal.int (((_apply_filter tblW step7W.filter).rows.filterMap
        (fun r => getCell tblW.cols r "Patient ID")).dedup.length)) := by
  have h := (patient_count_derivation step7W tablesW {} "patients" tblW rfl).2
    "Patient ID" [] (by decide)
  exact ⟨by decide, h.1, h.2⟩

/-! ## C8 -/

/-- Filesystem of the C8 fixtures: one TSV at `"data/p.tsv"` whose frame
is `tblNoId` (which has no `patient_id` column). -/
def fsW : FileSystem :=
  fun p => if p == "data/p.tsv" then some tblNoId else Option.none

/-- Table config of the C8 fixtures, requiring the default
`patient_id` identifier column. -/
def tcW : TableConfig := { name := "patients", path := "data/p.tsv" }

/-- C8 counterexample: the Table Store's cached load returns the table
even though the required identifier column is absent — it never fails
with a SchemaError, contrary to the claim. -/
theorem load_table_no_schema_check_counterexample :
    tblNoId.cols.contains tcW.id_column = false ∧
    _load_table fsW tcW.path = Except.ok tblNoId := ⟨by decide, rfl⟩

/-- C8 (amended): the Table Store's cached load (`_load_table`) fails
with NotFound when the path does not exist and otherwise returns the
table, performing no identifier-column check; the SchemaError for an
absent required identifier column is raised by the ingestion row loader
(`_load_table_rows_as_text`), which also fails with NotFound on a
missing path. -/
theorem table_load_error_split (fs : FileSystem) (cfg : TableConfig) :
    (fs cfg.path = Option.none →
      _load_table fs cfg.path =
        Except.error (LoadError.notFound ("TSV file not found: " ++ cfg.path)) ∧
      _load_table_rows_as_text fs cfg =
        Except.error (LoadError.notFound ("TSV file not found: " ++ cfg.path))) ∧
    (∀ df, fs cfg.path = some df →
      _load_table fs cfg.path = Except.ok df ∧
      (df.cols.contains cfg.id_column = false →
        ∃ m, _load_table_rows_as_text fs cfg =
          Except.error (LoadError.schemaError m))) := by
  constructor
  · intro hnone
    unfold _load_table _load_table_rows_as_text
    rw [hnone]
    exact ⟨rfl, rfl⟩
  · intro df hsome
    constructor
    · unfold _load_table
      rw [hsome]
    · intro habs
      unfold _load_table_rows_as_text
      rw [hsome]
      dsimp only
      rw [habs]
      exact ⟨_, rfl⟩

/-- Witness for C8 at the concrete filesystem: the cached load returns
the frame, while the ingestion loader rejects it with a SchemaError. -/
theorem table_load_error_split_witness :
    _load_table fsW tcW.path = Except.ok tblNoId ∧
    ∃ m, _load_table_rows_as_text fsW tcW =
      Except.error (LoadError.schemaError m) :=
  ⟨((table_load_error_split fsW tcW).2 tblNoId rfl).1,
   ((table_load_error_split fsW tcW).2 tblNoId rfl).2 rfl⟩

/-! ## C5 -/

/-- Every quantile of a one-element list is its element. -/
theorem quantileSorted_singleton (x p : ℚ) : quantileSorted [x] p = x := by
  unfold quantileSorted
  simp [ratFloorNat]

/-- The mean of a one-element list is its element. -/
theorem listMean_singleton (x : ℚ) : listMean [x] = x := by
  simp [listMean]

/-- C5: over the current cohort, `feature_descriptives` on a column with
fewer than 1 numeric value after coercion produces a failed step result
with no `metrics` key; on a column with exactly 1 numeric value `x` it
produces metrics with `std` null and `mean`, `median`, `min`, `max` all
equal to `x`. -/
theorem describe_feature_small_counts (step : PlanStep)
    (tables : List (String × Table)) (ctx : CohortContext)
    (cdf : Table) (f : String) (x : ℚ)
    (hc : ctx.current_cohort = some cdf)
    (hf : step.feature = some f)
    (hf0 : (f == "") = false)
    (hcol : cdf.cols.contains f = true) :
    (numericSeries cdf f = [] →
      List.lookup "status"
          (execute_feature_descriptives_step step tables ctx).1 =
        some (PyVal.str "failed") ∧
      List.lookup "metrics"
          (execute_feature_descriptives_step step tables ctx).1 =
        Option.none) ∧
    (numericSeries cdf f = [x] →
      List.lookup "metrics"
          (execute_feature_descriptives_step step tables ctx).1 =
        some (PyVal.dict (metricsOf [x])) ∧
      List.lookup "std" (metricsOf [x]) = some PyVal.none ∧
      List.lookup "mean" (metricsOf [x]) = some (PyVal.rat x) ∧
      List.lookup "median" (metricsOf [x]) = some (PyVal.rat x) ∧
      List.lookup "min" (metricsOf [x]) = some (PyVal.rat x) ∧
      List.lookup "max" (metricsOf [x]) = some (PyVal.rat x)) := by
  unfold execute_feature_descriptives_step
  rw [hc]
  dsimp only
  unfold descriptivesOn
  rw [hf]
  dsimp only
  simp only [hf0, hcol, Bool.not_false, Bool.and_self, Bool.not_true,
    Bool.false_eq_true, if_false, Option.getD_some]
  constructor
  · intro h0
    rw [h0]
    exact ⟨rfl, rfl⟩
  · intro h1
    rw [h1]
    refine ⟨rfl, rfl, ?_, ?_, rfl, rfl⟩
    · rw [show List.lookup "mean" (metricsOf [x]) =
          some (PyVal.rat (listMean [x])) from rfl, listMean_singleton]
    · rw [show List.lookup "median" (metricsOf [x]) =
          some (PyVal.rat (quantileSorted [x] (1/2))) from rfl,
        quantileSorted_singleton]

/-- One-column cohort for the C5 witness; its single TMB value is 5. -/
def cdf5 : Table := { cols := ["TMB"], rows := [[some "5"]] }

/-- Step for the C5 witness. -/
def step5 : PlanStep := { feature := some "TMB" }

/-- Context for the C5 witness. -/
def ctx5 : CohortContext := { current_cohort := some cdf5 }

/-- Witness for C5 at the one-value cohort. -/
theorem describe_feature_small_counts_witness :
    numericSeries cdf5 "TMB" = [(5 : ℚ)] ∧
    List.lookup "metrics"
        (execute_feature_descriptives_step step5 [] ctx5).1 =
      some (PyVal.dict (metricsOf [(5 : ℚ)])) ∧
    List.lookup "std" (metricsOf [(5 : ℚ)]) = some PyVal.none ∧
    List.lookup "mean" (metricsOf [(5 : ℚ)]) = some (PyVal.rat 5) ∧
    List.lookup "median" (metricsOf [(5 : ℚ)]) = some (PyVal.rat 5) ∧
    List.lookup "min" (metricsOf [(5 : ℚ)]) = some (PyVal.rat 5) ∧
    List.lookup "max" (metricsOf [(5 : ℚ)]) = some (PyVal.rat 5) := by
  have hs : numericSeries cdf5 "TMB" = [(5 : ℚ)] := by decide
  have h := (describe_feature_small_counts step5 [] ctx5 cdf5 "TMB" 5
    rfl rfl rfl rfl).2 hs
  exact ⟨hs, h.1, h.2.1, h.2.2.1, h.2.2.2.1, h.2.2.2.2.1, h.2.2.2.2.2⟩
